import Mathlib

/-!
Verification of `backend/routes/aiTutorRoutes.js`: an Express router with three
endpoints (`POST /chat`, `POST /verify-upi`, `POST /process-payment`).

Embedding conventions:
* A possibly-missing JS string field is `Option String`; `none` is
  `undefined`/absent, `some ""` is the present-but-empty string.
* JS truthiness for such a value is `jsTruthy`: `undefined` and `""` are falsy.
* `x || y` on such values is `jsOr` (JS returns `y` itself when `x` is falsy).
* A request body is `Option Body` (`none` models a missing `req.body`, which the
  source replaces with `{}` via `req.body || {}`).
* `res.status(400).json({ error: true, message })` is the `badRequest message`
  constructor; `res.json(...)` (status 200) is the success constructor of each
  response type.
* The provider call `openai.chat.completions.create(...)` is external; its
  outcome is a parameter of the handler: `Except ProviderError ProviderResponse`
  (`.error` models the call throwing, `.ok` a returned value).
* `Date.now()` is a `now : Nat` parameter of the payment handler.
-/

/-- JS truthiness of a possibly-undefined string value: `undefined` and `""`
are falsy, every other string is truthy. -/
def jsTruthy : Option String → Bool
  | none => false
  | some s => s != ""

/-- JS truthiness of a possibly-undefined number value: `undefined` and `0`
are falsy. -/
def jsTruthyInt : Option Int → Bool
  | none => false
  | some n => n != 0

/-- JS `a || b` on possibly-undefined string values: the value of `a` when `a`
is truthy, otherwise the value of `b` itself. -/
def jsOr (a b : Option String) : Option String :=
  if jsTruthy a then a else b

/-- `{ message }` destructured from the chat request body (line 10). -/
structure ChatBody where
  message : Option String
deriving DecidableEq

/-- The `message` object of one provider choice (`choices[i].message`). -/
structure ChatMessage where
  content : Option String
deriving DecidableEq

/-- One element of the provider response's `choices` array. -/
structure ChatChoice where
  message : Option ChatMessage
  text : Option String
deriving DecidableEq

/-- The nested `response.data` envelope some SDK versions return (line 43). -/
structure DataEnvelope where
  choices : Option (List ChatChoice)
deriving DecidableEq

/-- Shape of a value returned by the provider call (lines 30-33): the fields
the extraction code at lines 36-48 looks at. -/
structure ProviderResponse where
  choices : Option (List ChatChoice)
  data : Option DataEnvelope
deriving DecidableEq

/-- Shape of an error thrown by the provider call, flattened to the three
expressions the catch block reads at lines 55-56:
`error?.response?.data?.error?.message`, `error?.message`, and
`error?.response && JSON.stringify(error.response.data)` (the last is `none`
when `error.response` is absent, otherwise the stringified data). -/
structure ProviderError where
  responseDataErrorMessage : Option String
  message : Option String
  responseDataStringified : Option String
deriving DecidableEq

/-- A response of `POST /chat`: either the 400 validation error
(`{ error: true, message }`) or a 200 `{ reply, _debug?: { error } }`. -/
inductive ChatResponse where
  | badRequest (message : String)
  | reply (text : String) (debug : Option String)
deriving DecidableEq

/-- HTTP status of a chat response. -/
def ChatResponse.status : ChatResponse → Nat
  | .badRequest _ => 400
  | .reply _ _ => 200

/-- The `_debug.error` field of a chat response, `none` when absent. -/
def ChatResponse.debugField : ChatResponse → Option String
  | .badRequest _ => none
  | .reply _ d => d

/-- Reply-text extraction from a provider response, lines 36-48:
`choices[0]?.message?.content || choices[0]?.text` when `choices` is a
non-empty array; else (or when that value is falsy) the same two reads under
`response.data`; else the sentinel `"(no reply from AI)"`. -/
def extractReply (response : ProviderResponse) : String :=
  let replyText : Option String :=
    match response.choices with
    | some cs =>
      if cs.length > 0 then
        jsOr (cs.head?.bind fun c => c.message.bind fun m => m.content)
             (cs.head?.bind fun c => c.text)
      else none
    | none => none
  let replyText : Option String :=
    if jsTruthy replyText then replyText
    else
      match response.data with
      | some d =>
        jsOr (d.choices.bind fun cs => cs.head?.bind fun c =>
                c.message.bind fun m => m.content)
             (d.choices.bind fun cs => cs.head?.bind fun c => c.text)
      | none => replyText
  if jsTruthy replyText then replyText.getD "" else "(no reply from AI)"

/-- Error-message extraction in the catch block, lines 55-56:
`error?.response?.data?.error?.message || error?.message ||
(error?.response && JSON.stringify(error.response.data)) || "Internal server error"`. -/
def extractErrMessage (e : ProviderError) : String :=
  let v := jsOr (jsOr e.responseDataErrorMessage e.message) e.responseDataStringified
  if jsTruthy v then v.getD "" else "Internal server error"

/-- The `POST /chat` handler, lines 9-65. `apiKey` is
`process.env.OPENAI_API_KEY` (`none` = unset, `some ""` = set but empty, both
falsy); `providerResult` is the outcome of the provider call, consulted only
on the configured-key path. -/
def chatHandler (apiKey : Option String) (body : Option ChatBody)
    (providerResult : Except ProviderError ProviderResponse) : ChatResponse :=
  let b := body.getD ⟨none⟩
  if !jsTruthy b.message then
    .badRequest "Message is required"
  else
    let message := b.message.getD ""
    if !jsTruthy apiKey then
      .reply ("Demo reply (OpenAI key not configured). You asked: \"" ++ message ++ "\"") none
    else
      match providerResult with
      | .ok response => .reply (extractReply response) none
      | .error e =>
        .reply ("Sorry — the AI service is temporarily unavailable. Demo reply: you asked \"" ++ message ++ "\".")
          (some (extractErrMessage e))

/-- `{ upi, gateway }` destructured from the verify-upi request body (line 69). -/
structure UpiBody where
  upi : Option String
  gateway : Option String
deriving DecidableEq

/-- A response of `POST /verify-upi`: the 400 `{ error: true, message }` shape
or the 200 `{ verified: true, name, gateway }` shape (`gateway = none` is JSON
`null`). -/
inductive UpiResponse where
  | badRequest (message : String)
  | verified (name : String) (gateway : Option String)
deriving DecidableEq

/-- HTTP status of a verify-upi response. -/
def UpiResponse.status : UpiResponse → Nat
  | .badRequest _ => 400
  | .verified _ _ => 200

/-- JS `String.prototype.split` with a single-character separator, on the
character list of the string: `"".split(s)` is `[""]`, and each occurrence of
the separator ends a segment. -/
def splitChar (sep : Char) : List Char → List (List Char)
  | [] => [[]]
  | c :: cs =>
    if c = sep then [] :: splitChar sep cs
    else
      match splitChar sep cs with
      | [] => [[c]]
      | p :: ps => (c :: p) :: ps

/-- JS `name.charAt(0).toUpperCase() + name.slice(1)` (line 84): upper-case the
first character, keep the rest. -/
def jsCapitalize (s : String) : String :=
  match s.data with
  | [] => ""
  | c :: cs => String.mk (c.toUpper :: cs)

/-- The format check of line 75 on the split parts:
`parts.length !== 2 || !parts[0] || !parts[1]`. -/
def upiFormatBad (upi : String) : Bool :=
  (splitChar '@' upi.data).length != 2
    || ((splitChar '@' upi.data).headD []).isEmpty
    || (((splitChar '@' upi.data).drop 1).headD []).isEmpty

/-- The `POST /verify-upi` handler, lines 68-87: requires a truthy `upi`,
splits it on `'@'` and requires exactly two non-empty parts, then reports
`verified: true` with the capitalized local part and `gateway || null`. -/
def verifyUpiHandler (body : Option UpiBody) : UpiResponse :=
  let b := body.getD ⟨none, none⟩
  if !jsTruthy b.upi then
    .badRequest "UPI ID is required"
  else
    let upi := b.upi.getD ""
    if upiFormatBad upi then
      .badRequest "Invalid UPI ID format"
    else
      let name := String.mk ((splitChar '@' upi.data).headD [])
      let displayName := jsCapitalize name
      .verified displayName (jsOr b.gateway none)

/-- `{ method, amount, details }` destructured from the payment request body
(line 91): `method` a possibly-missing string, `amount` a possibly-missing
number (modelled as `Int`), `details` an opaque payload echoed verbatim. -/
structure PaymentBody where
  method : Option String
  amount : Option Int
  details : Option String
deriving DecidableEq

/-- A response of `POST /process-payment`: the 400 `{ error: true, message }`
shape or the 200 `{ success: true, txId, method, amount, details }` shape. -/
inductive PaymentResponse where
  | badRequest (message : String)
  | success (txId : String) (method : String) (amount : Int) (details : Option String)
deriving DecidableEq

/-- HTTP status of a payment response. -/
def PaymentResponse.status : PaymentResponse → Nat
  | .badRequest _ => 400
  | .success _ _ _ _ => 200

/-- Whether a payment response is the 200 success shape. -/
def PaymentResponse.isSuccess : PaymentResponse → Bool
  | .badRequest _ => false
  | .success _ _ _ _ => true

/-- Decimal digit characters of a natural number, most significant first:
the character list of JS `n.toString()` for a non-negative integer. -/
def decimalDigits (n : Nat) : List Char :=
  if n = 0 then ['0']
  else (Nat.digits 10 n).reverse.map fun d => Char.ofNat (48 + d)

/-- JS `n.toString()` for a non-negative integer `n`. -/
def decimalRepr (n : Nat) : String :=
  String.mk (decimalDigits n)

/-- JS `s.slice(-k)`: the last `k` characters of `s`, or all of `s` when `s`
is shorter than `k`. -/
def jsSliceLast (k : Nat) (s : String) : String :=
  String.mk (s.data.drop (s.data.length - k))

/-- The `POST /process-payment` handler, lines 90-100: requires truthy
`method` and `amount`, then reports success with
`txId = "TXN-" + Date.now().toString().slice(-6)` and the inputs echoed.
`now` is the value of `Date.now()` in milliseconds. -/
def processPaymentHandler (now : Nat) (body : Option PaymentBody) : PaymentResponse :=
  let b := body.getD ⟨none, none, none⟩
  if !jsTruthy b.method || !jsTruthyInt b.amount then
    .badRequest "method and amount required"
  else
    .success ("TXN-" ++ jsSliceLast 6 (decimalRepr now))
      (b.method.getD "") (b.amount.getD 0) b.details

/-! ### Spec-side definitions

These follow the spec's words, to be compared against the source-derived
definitions above. -/

/-- The first choice's `message.content`, read through every optional layer. -/
def firstChoiceContent (cho : Option (List ChatChoice)) : Option String :=
  cho.bind fun cs => cs.head?.bind fun c => c.message.bind fun m => m.content

/-- The first choice's plain `text`, read through every optional layer. -/
def firstChoiceText (cho : Option (List ChatChoice)) : Option String :=
  cho.bind fun cs => cs.head?.bind fun c => c.text

/-- The spec's ordered extractor sequence for the chat reply: first choice's
message content, first choice's plain text, then the same two shapes under the
nested `data` envelope. -/
def specExtractors (r : ProviderResponse) : List (Option String) :=
  [firstChoiceContent r.choices,
   firstChoiceText r.choices,
   firstChoiceContent (r.data.bind DataEnvelope.choices),
   firstChoiceText (r.data.bind DataEnvelope.choices)]

/-- First truthy value of a list of optional strings, `none` when every entry
is absent or empty: the spec's "stop at first success". -/
def jsFirstTruthy : List (Option String) → Option String
  | [] => none
  | o :: os => if jsTruthy o then o else jsFirstTruthy os

/-- The spec's validity condition on a UPI string: exactly two non-empty
segments separated by a single `@` (a non-empty local part and a non-empty
domain part, neither containing `@`). -/
def ValidUpiString (u : String) : Prop :=
  ∃ a b : List Char,
    a ≠ [] ∧ b ≠ [] ∧ '@' ∉ a ∧ '@' ∉ b ∧ u.data = a ++ '@' :: b

/-! ### Helper lemmas -/

theorem jsTruthy_none : jsTruthy none = false := rfl

theorem jsTruthy_eq_true_iff (o : Option String) :
    jsTruthy o = true ↔ ∃ s, o = some s ∧ s ≠ "" := by
  cases o with
  | none => simp [jsTruthy]
  | some s => simp [jsTruthy]

theorem jsTruthy_some_of_ne (s : String) (h : s ≠ "") : jsTruthy (some s) = true := by
  simp [jsTruthy, h]

theorem jsFirstTruthy_eq_none_iff (l : List (Option String)) :
    jsFirstTruthy l = none ↔ ∀ o ∈ l, jsTruthy o = false := by
  induction l with
  | nil => simp [jsFirstTruthy]
  | cons o os ih =>
    simp only [jsFirstTruthy]
    by_cases h : jsTruthy o
    · rw [if_pos h]
      rcases (jsTruthy_eq_true_iff o).mp h with ⟨s, rfl, hs⟩
      simp [h]
    · rw [if_neg h, ih]
      simp only [Bool.not_eq_true] at h
      simp [h]

/-- The two-stage `||`-and-sentinel computation of `extractReply` agrees with
taking the first truthy extractor and defaulting to the sentinel. -/
theorem chain4_eq (a b c d : Option String) (s : String) :
    (if jsTruthy (if jsTruthy (jsOr a b) then jsOr a b else jsOr c d) then
       (if jsTruthy (jsOr a b) then jsOr a b else jsOr c d).getD ""
     else s)
      = (jsFirstTruthy [a, b, c, d]).getD s := by
  by_cases ha : jsTruthy a
  · rcases (jsTruthy_eq_true_iff a).mp ha with ⟨x, rfl, hx⟩
    simp [jsOr, jsFirstTruthy, ha]
  · by_cases hb : jsTruthy b
    · rcases (jsTruthy_eq_true_iff b).mp hb with ⟨x, rfl, hx⟩
      simp [jsOr, jsFirstTruthy, ha, hb]
    · by_cases hc : jsTruthy c
      · rcases (jsTruthy_eq_true_iff c).mp hc with ⟨x, rfl, hx⟩
        simp [jsOr, jsFirstTruthy, ha, hb, hc]
      · by_cases hd : jsTruthy d
        · rcases (jsTruthy_eq_true_iff d).mp hd with ⟨x, rfl, hx⟩
          simp [jsOr, jsFirstTruthy, ha, hb, hc, hd]
        · simp [jsOr, jsFirstTruthy, ha, hb, hc, hd]

/-- `extractReply` written as the four extractors composed through `jsOr`. -/
theorem extractReply_closed (r : ProviderResponse) :
    extractReply r =
      (if jsTruthy (if jsTruthy (jsOr (firstChoiceContent r.choices) (firstChoiceText r.choices)) then
            jsOr (firstChoiceContent r.choices) (firstChoiceText r.choices)
          else jsOr (firstChoiceContent (r.data.bind DataEnvelope.choices))
                    (firstChoiceText (r.data.bind DataEnvelope.choices))) then
         (if jsTruthy (jsOr (firstChoiceContent r.choices) (firstChoiceText r.choices)) then
            jsOr (firstChoiceContent r.choices) (firstChoiceText r.choices)
          else jsOr (firstChoiceContent (r.data.bind DataEnvelope.choices))
                    (firstChoiceText (r.data.bind DataEnvelope.choices))).getD ""
       else "(no reply from AI)") := by
  obtain ⟨cho, dat⟩ := r
  cases cho with
  | none =>
    cases dat with
    | none => simp [extractReply, firstChoiceContent, firstChoiceText, jsOr, jsTruthy_none]
    | some d => simp [extractReply, firstChoiceContent, firstChoiceText, jsOr, jsTruthy_none]
  | some cs =>
    cases cs with
    | nil =>
      cases dat with
      | none => simp [extractReply, firstChoiceContent, firstChoiceText, jsOr, jsTruthy_none]
      | some d => simp [extractReply, firstChoiceContent, firstChoiceText, jsOr, jsTruthy_none]
    | cons c cs =>
      cases dat with
      | none =>
        simp only [extractReply, firstChoiceContent, firstChoiceText, jsOr]
        split_ifs <;> simp_all [jsTruthy_none]
      | some d => simp [extractReply, firstChoiceContent, firstChoiceText, jsOr]

theorem splitChar_ne_nil (sep : Char) (l : List Char) : splitChar sep l ≠ [] := by
  induction l with
  | nil => simp [splitChar]
  | cons c cs ih =>
    simp only [splitChar]
    split
    · simp
    · split <;> simp

theorem splitChar_eq_single (sep : Char) (l x : List Char) :
    splitChar sep l = [x] ↔ l = x ∧ sep ∉ x := by
  induction l generalizing x with
  | nil =>
    simp only [splitChar, List.cons_eq_cons, and_true]
    constructor
    · rintro ⟨rfl, -⟩
      exact ⟨rfl, List.not_mem_nil _⟩
    · rintro ⟨rfl, -⟩
      rfl
  | cons c cs ih =>
    simp only [splitChar]
    by_cases hc : c = sep
    · subst hc
      rw [if_pos rfl, List.cons_eq_cons]
      constructor
      · rintro ⟨rfl, h2⟩
        exact absurd h2 (splitChar_ne_nil _ _)
      · rintro ⟨rfl, hmem⟩
        exact absurd (List.mem_cons_self _ _) hmem
    · rw [if_neg hc]
      rcases hsp : splitChar sep cs with - | ⟨p, ps⟩
      · exact absurd hsp (splitChar_ne_nil _ _)
      · simp only [List.cons_eq_cons]
        constructor
        · rintro ⟨rfl, rfl⟩
          obtain ⟨rfl, hp⟩ := (ih p).mp hsp
          refine ⟨rfl, fun hmem => ?_⟩
          rcases List.mem_cons.mp hmem with h | h
          · exact hc h.symm
          · exact hp h
        · rintro ⟨rfl, hmem⟩
          have hcs : sep ∉ cs := fun h => hmem (List.mem_cons_of_mem _ h)
          have hone : splitChar sep cs = [cs] := (ih cs).mpr ⟨rfl, hcs⟩
          rw [hone] at hsp
          obtain ⟨rfl, rfl⟩ := List.cons_eq_cons.mp hsp.symm
          exact ⟨rfl, rfl⟩

theorem splitChar_eq_pair (sep : Char) (l a b : List Char) :
    splitChar sep l = [a, b] ↔ l = a ++ sep :: b ∧ sep ∉ a ∧ sep ∉ b := by
  induction l generalizing a with
  | nil =>
    constructor
    · intro h
      simp [splitChar] at h
    · rintro ⟨h, -⟩
      exact absurd h (by simp)
  | cons c cs ih =>
    simp only [splitChar]
    by_cases hc : c = sep
    · subst hc
      rw [if_pos rfl, List.cons_eq_cons]
      constructor
      · rintro ⟨rfl, h2⟩
        obtain ⟨rfl, hb⟩ := (splitChar_eq_single _ cs b).mp h2
        exact ⟨rfl, List.not_mem_nil _, hb⟩
      · rintro ⟨hl, ha, hb⟩
        rcases a with - | ⟨a0, a'⟩
        · simp only [List.nil_append, List.cons_eq_cons] at hl
          obtain ⟨-, rfl⟩ := hl
          exact ⟨rfl, (splitChar_eq_single _ cs cs).mpr ⟨rfl, hb⟩⟩
        · simp only [List.cons_append, List.cons_eq_cons] at hl
          exact absurd (hl.1 ▸ List.mem_cons_self a0 a') ha
    · rw [if_neg hc]
      rcases hsp : splitChar sep cs with - | ⟨p, ps⟩
      · exact absurd hsp (splitChar_ne_nil _ _)
      · simp only [List.cons_eq_cons]
        constructor
        · rintro ⟨rfl, rfl⟩
          obtain ⟨rfl, hp, hb⟩ := (ih p).mp hsp
          refine ⟨rfl, fun hmem => ?_, hb⟩
          rcases List.mem_cons.mp hmem with h | h
          · exact hc h.symm
          · exact hp h
        · rintro ⟨hl, ha, hb⟩
          rcases a with - | ⟨a0, a'⟩
          · simp only [List.nil_append, List.cons_eq_cons] at hl
            exact absurd hl.1 hc
          · simp only [List.cons_append, List.cons_eq_cons] at hl
            obtain ⟨rfl, hcs⟩ := hl
            have ha' : sep ∉ a' := fun h => ha (List.mem_cons_of_mem _ h)
            have := (ih a').mpr ⟨hcs, ha', hb⟩
            rw [this] at hsp
            obtain ⟨rfl, rfl⟩ := List.cons_eq_cons.mp hsp.symm
            exact ⟨rfl, rfl⟩

/-- The handler's boolean format check passes exactly on spec-valid UPI
strings. -/
theorem upi_check_eq_false_iff (u : String) :
    upiFormatBad u = false ↔ ValidUpiString u := by
  unfold upiFormatBad
  constructor
  · intro h
    simp only [Bool.or_eq_false_iff, bne_eq_false_iff_eq, List.isEmpty_eq_false] at h
    obtain ⟨⟨hlen, hh⟩, ht⟩ := h
    rcases hsp : splitChar '@' u.data with - | ⟨a, rest⟩
    · exact absurd hsp (splitChar_ne_nil _ _)
    · rcases rest with - | ⟨b, rest'⟩
      · rw [hsp] at hlen; simp at hlen
      · rcases rest' with - | ⟨x, rest''⟩
        · rw [hsp] at hh ht
          simp only [List.headD_cons, List.drop_succ_cons, List.drop_zero] at hh ht
          obtain ⟨hl, ha, hb⟩ := (splitChar_eq_pair '@' u.data a b).mp hsp
          exact ⟨a, b, hh, ht, ha, hb, hl⟩
        · rw [hsp] at hlen; simp at hlen
  · rintro ⟨a, b, ha, hb, hna, hnb, hl⟩
    have hsp : splitChar '@' u.data = [a, b] :=
      (splitChar_eq_pair '@' u.data a b).mpr ⟨hl, hna, hnb⟩
    rw [hsp]
    simp [List.isEmpty_eq_false, ha, hb]

theorem digitChar_isDigit : ∀ d < 10, (Char.ofNat (48 + d)).isDigit = true := by decide

theorem decimalDigits_all_digit (n : Nat) :
    ∀ c ∈ decimalDigits n, c.isDigit = true := by
  intro c hc
  unfold decimalDigits at hc
  split at hc
  · simp only [List.mem_singleton] at hc
    subst hc
    decide
  · simp only [List.mem_map, List.mem_reverse] at hc
    obtain ⟨d, hd, rfl⟩ := hc
    exact digitChar_isDigit d (Nat.digits_lt_base (by norm_num) hd)

theorem decimalDigits_length_ge (n : Nat) (h : 100000 ≤ n) :
    6 ≤ (decimalDigits n).length := by
  have hn : n ≠ 0 := by omega
  unfold decimalDigits
  rw [if_neg hn]
  rw [List.length_map, List.length_reverse]
  rw [Nat.digits_len 10 n (by norm_num) hn]
  have h5 : 5 ≤ Nat.log 10 n := by
    rw [← Nat.pow_le_iff_le_log (by norm_num) hn]
    calc (10 : Nat) ^ 5 = 100000 := by norm_num
    _ ≤ n := h
  omega

/-- The last-six-characters slice of the decimal timestamp is exactly six
digit characters once the timestamp has at least six digits. -/
theorem txTail_length_and_digits (now : Nat) (h : 100000 ≤ now) :
    (jsSliceLast 6 (decimalRepr now)).length = 6
      ∧ ∀ c ∈ (jsSliceLast 6 (decimalRepr now)).data, c.isDigit = true := by
  have hlen : 6 ≤ (decimalDigits now).length := decimalDigits_length_ge now h
  constructor
  · show (String.mk ((decimalRepr now).data.drop ((decimalRepr now).data.length - 6))).length = 6
    have : (decimalRepr now).data = decimalDigits now := rfl
    rw [String.length]
    simp only [this]
    rw [List.length_drop]
    omega
  · intro c hc
    have : (jsSliceLast 6 (decimalRepr now)).data
        = (decimalDigits now).drop ((decimalDigits now).length - 6) := rfl
    rw [this] at hc
    exact decimalDigits_all_digit now c (List.drop_subset _ _ hc)

/-- The verify-upi handler past the required-field check, for a non-empty
`upi`. -/
theorem verifyUpiHandler_some_ne (u : String) (hu : u ≠ "") (g : Option String) :
    verifyUpiHandler (some ⟨some u, g⟩)
      = if upiFormatBad u then .badRequest "Invalid UPI ID format"
        else .verified (jsCapitalize (String.mk ((splitChar '@' u.data).headD [])))
               (jsOr g none) := by
  simp [verifyUpiHandler, jsTruthy_some_of_ne u hu]

/-- The verify-upi handler on a spec-valid `upi` written as
`local@domain` with `local = c :: r`. -/
theorem verifyUpiHandler_valid_eq (c : Char) (r b : List Char) (g : Option String)
    (hb : b ≠ []) (hna : '@' ∉ c :: r) (hnb : '@' ∉ b) :
    verifyUpiHandler (some ⟨some (String.mk (c :: r ++ '@' :: b)), g⟩)
      = .verified (String.mk (c.toUpper :: r)) (jsOr g none) := by
  have hu : String.mk (c :: r ++ '@' :: b) ≠ "" := by
    intro h
    exact absurd (congrArg String.data h) (by simp)
  rw [verifyUpiHandler_some_ne _ hu g]
  have hsp : splitChar '@' (c :: (r ++ '@' :: b)) = [c :: r, b] :=
    (splitChar_eq_pair '@' _ (c :: r) b).mpr ⟨rfl, hna, hnb⟩
  have hbad : upiFormatBad (String.mk (c :: r ++ '@' :: b)) = false := by
    simp [upiFormatBad, hsp, List.isEmpty_eq_false, hb]
  rw [hbad]
  simp [jsCapitalize, hsp]

/-! ### Claim theorems -/

/-- C8: for every chat request whose `message` is empty or missing, the chat
endpoint returns HTTP 400 with the exact body
`{ error: true, message: "Message is required" }`. -/
theorem chat_empty_message_bad_request (apiKey : Option String)
    (pr : Except ProviderError ProviderResponse) :
    chatHandler apiKey (some ⟨some ""⟩) pr = .badRequest "Message is required"
      ∧ chatHandler apiKey (some ⟨none⟩) pr = .badRequest "Message is required"
      ∧ (chatHandler apiKey (some ⟨some ""⟩) pr).status = 400
      ∧ (chatHandler apiKey (some ⟨none⟩) pr).status = 400 :=
  ⟨rfl, rfl, rfl, rfl⟩

/-- C2: with no provider credential configured (absent or empty key, both
falsy), every chat request with a non-empty message `m` gets HTTP 200 and a
reply containing `m` verbatim; for `m = "hi"` the reply is exactly
`Demo reply (OpenAI key not configured). You asked: "hi"` (see the witness). -/
theorem chat_demo_reply_echoes_message (apiKey : Option String)
    (hk : jsTruthy apiKey = false) (m : String) (hm : m ≠ "")
    (pr : Except ProviderError ProviderResponse) :
    chatHandler apiKey (some ⟨some m⟩) pr
        = .reply ("Demo reply (OpenAI key not configured). You asked: \"" ++ m ++ "\"") none
      ∧ (∃ pre post, "Demo reply (OpenAI key not configured). You asked: \"" ++ m ++ "\""
          = pre ++ m ++ post)
      ∧ (chatHandler apiKey (some ⟨some m⟩) pr).status = 200 := by
  have h1 : chatHandler apiKey (some ⟨some m⟩) pr
      = .reply ("Demo reply (OpenAI key not configured). You asked: \"" ++ m ++ "\"") none := by
    simp [chatHandler, jsTruthy_some_of_ne m hm, hk]
  refine ⟨h1, ⟨"Demo reply (OpenAI key not configured). You asked: \"", "\"", rfl⟩, ?_⟩
  rw [h1]
  rfl

/-- Witness for C2 at the spec's concrete scenario: message `"hi"`, no key. -/
theorem chat_demo_reply_echoes_message_witness :
    jsTruthy none = false
      ∧ chatHandler none (some ⟨some "hi"⟩) (.ok ⟨none, none⟩)
          = .reply "Demo reply (OpenAI key not configured). You asked: \"hi\"" none :=
  ⟨rfl, (chat_demo_reply_echoes_message none rfl "hi" (by decide) (.ok ⟨none, none⟩)).1⟩

/-- C10: an entirely absent request body is treated as the empty object by all
three handlers, which then return their 400 validation errors. -/
theorem missing_body_treated_as_empty (apiKey : Option String)
    (pr : Except ProviderError ProviderResponse) (now : Nat) :
    chatHandler apiKey none pr = chatHandler apiKey (some ⟨none⟩) pr
      ∧ chatHandler apiKey none pr = .badRequest "Message is required"
      ∧ verifyUpiHandler none = verifyUpiHandler (some ⟨none, none⟩)
      ∧ verifyUpiHandler none = .badRequest "UPI ID is required"
      ∧ processPaymentHandler now none = processPaymentHandler now (some ⟨none, none, none⟩)
      ∧ processPaymentHandler now none = .badRequest "method and amount required"
      ∧ (chatHandler apiKey none pr).status = 400
      ∧ (verifyUpiHandler none).status = 400
      ∧ (processPaymentHandler now none).status = 400 :=
  ⟨rfl, rfl, rfl, rfl, rfl, rfl, rfl, rfl, rfl⟩

/-- C3: a present non-empty `upi` is rejected with 400
`"Invalid UPI ID format"` exactly when it is not two non-empty `@`-separated
segments, and an absent or empty `upi` is rejected with 400
`"UPI ID is required"`. -/
theorem verifyUpi_validation (u : String) (g : Option String) :
    (verifyUpiHandler (some ⟨some u, g⟩) = .badRequest "Invalid UPI ID format"
        ↔ u ≠ "" ∧ ¬ ValidUpiString u)
      ∧ (verifyUpiHandler (some ⟨some u, g⟩) = .badRequest "UPI ID is required" ↔ u = "")
      ∧ verifyUpiHandler (some ⟨none, g⟩) = .badRequest "UPI ID is required"
      ∧ (UpiResponse.badRequest "Invalid UPI ID format").status = 400
      ∧ (UpiResponse.badRequest "UPI ID is required").status = 400 := by
  by_cases hu : u = ""
  · subst hu
    have h0 : verifyUpiHandler (some ⟨some "", g⟩) = .badRequest "UPI ID is required" := rfl
    refine ⟨?_, ?_, rfl, rfl, rfl⟩
    · rw [h0]
      constructor
      · intro h
        exact absurd h (by decide)
      · rintro ⟨hne, -⟩
        exact absurd rfl hne
    · rw [h0]
      exact iff_of_true rfl rfl
  · rw [verifyUpiHandler_some_ne u hu g]
    refine ⟨?_, ?_, rfl, rfl, rfl⟩
    · by_cases hfb : upiFormatBad u = true
      · rw [if_pos hfb]
        have hnv : ¬ ValidUpiString u := fun hval => by
          rw [(upi_check_eq_false_iff u).mpr hval] at hfb
          exact Bool.false_ne_true hfb
        exact ⟨fun _ => ⟨hu, hnv⟩, fun _ => rfl⟩
      · have hfb' : upiFormatBad u = false := Bool.not_eq_true _ ▸ Bool.eq_false_iff.mpr hfb
        rw [if_neg hfb]
        constructor
        · intro h
          exact absurd h (by simp)
        · rintro ⟨-, hnv⟩
          exact absurd ((upi_check_eq_false_iff u).mp hfb') hnv
    · by_cases hfb : upiFormatBad u = true
      · rw [if_pos hfb]
        constructor
        · intro h
          exact absurd h (by decide)
        · intro h
          exact absurd h hu
      · rw [if_neg hfb]
        constructor
        · intro h
          exact absurd h (by simp)
        · intro h
          exact absurd h hu

/-- C4: every valid `upi` of the form `local@domain` (both segments non-empty,
exactly one `@`, `local = c :: r`) verifies with `name` equal to the
local part with its first character upper-cased and the rest unchanged. -/
theorem verifyUpi_success_capitalizes (c : Char) (r b : List Char) (g : Option String)
    (hb : b ≠ []) (hna : '@' ∉ c :: r) (hnb : '@' ∉ b) :
    verifyUpiHandler (some ⟨some (String.mk (c :: r ++ '@' :: b)), g⟩)
      = .verified (String.mk (c.toUpper :: r)) (jsOr g none) :=
  verifyUpiHandler_valid_eq c r b g hb hna hnb

/-- Witness for C4 at the spec's concrete scenario: `upi = "john@paytm"`,
no gateway, yielding `{verified: true, name: "John", gateway: null}`. -/
theorem verifyUpi_success_capitalizes_witness :
    verifyUpiHandler (some ⟨some "john@paytm", none⟩) = .verified "John" none := by
  have h := verifyUpi_success_capitalizes 'j' ['o', 'h', 'n'] ['p', 'a', 'y', 't', 'm']
    none (by decide) (by decide) (by decide)
  exact h

/-- C5 counterexample: for the valid request `{upi: "john@paytm", gateway: ""}`
the `gateway` field is supplied, yet the response carries `gateway: null`
rather than echoing `""` verbatim — `gateway || null` collapses every falsy
supplied value to `null`. -/
theorem verifyUpi_gateway_empty_cex :
    verifyUpiHandler (some ⟨some "john@paytm", some ""⟩) = .verified "John" none
      ∧ UpiResponse.verified "John" none ≠ UpiResponse.verified "John" (some "") := by
  constructor
  · decide
  · decide

/-- The `gateway` field of a verify-upi response, `none` when absent. -/
def UpiResponse.gatewayField : UpiResponse → Option String
  | .badRequest _ => none
  | .verified _ gw => gw

/-- C5 amended: for every valid verify-upi request, the response's `gateway`
equals the request's `gateway` verbatim when it is supplied and non-empty, and
is `null` when it is omitted or supplied as the empty string. -/
theorem verifyUpi_gateway_echo (c : Char) (r b : List Char)
    (hb : b ≠ []) (hna : '@' ∉ c :: r) (hnb : '@' ∉ b) (s : String) (hs : s ≠ "") :
    (verifyUpiHandler (some ⟨some (String.mk (c :: r ++ '@' :: b)), some s⟩)).gatewayField
        = some s
      ∧ (verifyUpiHandler (some ⟨some (String.mk (c :: r ++ '@' :: b)), none⟩)).gatewayField
        = none
      ∧ (verifyUpiHandler (some ⟨some (String.mk (c :: r ++ '@' :: b)), some ""⟩)).gatewayField
        = none := by
  refine ⟨?_, ?_, ?_⟩
  · rw [verifyUpiHandler_valid_eq c r b (some s) hb hna hnb]
    simp [UpiResponse.gatewayField, jsOr, jsTruthy_some_of_ne s hs]
  · rw [verifyUpiHandler_valid_eq c r b none hb hna hnb]
    rfl
  · rw [verifyUpiHandler_valid_eq c r b (some "") hb hna hnb]
    rfl

/-- Witness for C5 amended: `upi = "john@paytm"` with gateway `"razorpay"`,
omitted, and `""`. -/
theorem verifyUpi_gateway_echo_witness :
    (verifyUpiHandler (some ⟨some "john@paytm", some "razorpay"⟩)).gatewayField
        = some "razorpay"
      ∧ (verifyUpiHandler (some ⟨some "john@paytm", none⟩)).gatewayField = none
      ∧ (verifyUpiHandler (some ⟨some "john@paytm", some ""⟩)).gatewayField = none := by
  have h := verifyUpi_gateway_echo 'j' ['o', 'h', 'n'] ['p', 'a', 'y', 't', 'm']
    (by decide) (by decide) (by decide) "razorpay" (by decide)
  exact h

/-- C6: the payment endpoint returns 400 `"method and amount required"`
exactly when `method` or `amount` is missing/falsy, and succeeds on every
other request — no numeric-range or type validation beyond the truthy check. -/
theorem processPayment_validation (now : Nat) (b : PaymentBody) :
    (processPaymentHandler now (some b) = .badRequest "method and amount required"
        ↔ (jsTruthy b.method = false ∨ jsTruthyInt b.amount = false))
      ∧ (processPaymentHandler now (some b)).isSuccess
          = (jsTruthy b.method && jsTruthyInt b.amount)
      ∧ (PaymentResponse.badRequest "method and amount required").status = 400 := by
  obtain ⟨m, a, d⟩ := b
  by_cases hm : jsTruthy m <;> by_cases ha : jsTruthyInt a <;>
    simp [processPaymentHandler, hm, ha, PaymentResponse.isSuccess, PaymentResponse.status]

/-- C7: every valid payment request succeeds with `txId` equal to the fixed
prefix followed by the last six characters of the decimal timestamp — exactly
six digit characters — and `method`, `amount`, `details` echoed unchanged.
The hypothesis `100000 ≤ now` says the timestamp has at least six decimal
digits (a millisecond epoch timestamp has thirteen). -/
theorem processPayment_success_txid (now : Nat) (h : 100000 ≤ now)
    (m : String) (hm : m ≠ "") (n : Int) (hn : n ≠ 0) (d : Option String) :
    processPaymentHandler now (some ⟨some m, some n, d⟩)
        = .success ("TXN-" ++ jsSliceLast 6 (decimalRepr now)) m n d
      ∧ (jsSliceLast 6 (decimalRepr now)).length = 6
      ∧ ∀ c ∈ (jsSliceLast 6 (decimalRepr now)).data, c.isDigit = true := by
  refine ⟨?_, (txTail_length_and_digits now h).1, (txTail_length_and_digits now h).2⟩
  have hmt : jsTruthy (some m) = true := jsTruthy_some_of_ne m hm
  have hat : jsTruthyInt (some n) = true := by simp [jsTruthyInt, hn]
  simp [processPaymentHandler, hmt, hat]

/-- Witness for C7 at the spec's concrete scenario
`{method: "card", amount: 500}` with a realistic millisecond timestamp. -/
theorem processPayment_success_txid_witness :
    100000 ≤ 1760000012345
      ∧ (processPaymentHandler 1760000012345 (some ⟨some "card", some 500, none⟩)
            = .success ("TXN-" ++ jsSliceLast 6 (decimalRepr 1760000012345)) "card" 500 none
          ∧ (jsSliceLast 6 (decimalRepr 1760000012345)).length = 6
          ∧ ∀ c ∈ (jsSliceLast 6 (decimalRepr 1760000012345)).data, c.isDigit = true) :=
  ⟨by norm_num,
   processPayment_success_txid 1760000012345 (by norm_num) "card" (by decide) 500 (by decide) none⟩

/-- C9: for every provider response, the extracted reply is the first truthy
value of the spec's ordered extractor chain (first choice's message content,
first choice's plain text, then the same two shapes under the `data`
envelope), with the literal sentinel substituted exactly when every extractor
yields nothing (is absent or empty). -/
theorem chat_extraction_chain_spec (r : ProviderResponse) :
    extractReply r = (jsFirstTruthy (specExtractors r)).getD "(no reply from AI)"
      ∧ (jsFirstTruthy (specExtractors r) = none
          ↔ ∀ o ∈ specExtractors r, jsTruthy o = false) := by
  refine ⟨?_, jsFirstTruthy_eq_none_iff _⟩
  rw [extractReply_closed r]
  exact chain4_eq _ _ _ _ _

/-- C1 counterexample: with a credential configured and a non-empty message,
a provider call that RETURNS an unusable shape (here `{}`: no `choices`, no
`data`) yields HTTP 200 with the sentinel reply `"(no reply from AI)"` and NO
debug field — not the apology reply plus a debug field the claim asserts for
this case. -/
theorem chat_unusable_shape_cex :
    chatHandler (some "sk-test") (some ⟨some "hi"⟩) (.ok ⟨none, none⟩)
        = .reply "(no reply from AI)" none
      ∧ (chatHandler (some "sk-test") (some ⟨some "hi"⟩) (.ok ⟨none, none⟩)).debugField = none
      ∧ "(no reply from AI)"
          ≠ "Sorry — the AI service is temporarily unavailable. Demo reply: you asked \"hi\"." :=
  ⟨rfl, rfl, by decide⟩

/-- C1 amended: with a credential configured and a non-empty message, a
provider call that THROWS yields HTTP 200 with the apology reply plus a debug
field carrying the extracted error message; a provider call that returns an
unusable shape (every extractor yields nothing) yields HTTP 200 with the
sentinel reply and no debug field; in neither case is a server error
returned — the status is 200 for every provider outcome. -/
theorem chat_upstream_failure_swallowed (key : String) (hk : key ≠ "")
    (m : String) (hm : m ≠ "") :
    (∀ e : ProviderError,
        chatHandler (some key) (some ⟨some m⟩) (.error e)
          = .reply ("Sorry — the AI service is temporarily unavailable. Demo reply: you asked \""
                ++ m ++ "\".")
              (some (extractErrMessage e)))
      ∧ (∀ r : ProviderResponse, (∀ o ∈ specExtractors r, jsTruthy o = false) →
          chatHandler (some key) (some ⟨some m⟩) (.ok r) = .reply "(no reply from AI)" none)
      ∧ (∀ pr : Except ProviderError ProviderResponse,
          (chatHandler (some key) (some ⟨some m⟩) pr).status = 200) := by
  have hkt : jsTruthy (some key) = true := jsTruthy_some_of_ne key hk
  have hmt : jsTruthy (some m) = true := jsTruthy_some_of_ne m hm
  refine ⟨?_, ?_, ?_⟩
  · intro e
    simp [chatHandler, hkt, hmt]
  · intro r hall
    have hnone : jsFirstTruthy (specExtractors r) = none :=
      (jsFirstTruthy_eq_none_iff _).mpr hall
    have hext : extractReply r = "(no reply from AI)" := by
      rw [extractReply_closed r, chain4_eq]
      have : jsFirstTruthy
          [firstChoiceContent r.choices, firstChoiceText r.choices,
           firstChoiceContent (r.data.bind DataEnvelope.choices),
           firstChoiceText (r.data.bind DataEnvelope.choices)] = none := hnone
      rw [this]
      rfl
    simp [chatHandler, hkt, hmt, hext]
  · intro pr
    cases pr with
    | ok r => simp [chatHandler, hkt, hmt, ChatResponse.status]
    | error e => simp [chatHandler, hkt, hmt, ChatResponse.status]

/-- Witness for C1 amended: key `"sk"`, message `"hi"`, provider throwing an
error whose `message` is `"boom"`. -/
theorem chat_upstream_failure_swallowed_witness :
    chatHandler (some "sk") (some ⟨some "hi"⟩) (.error ⟨none, some "boom", none⟩)
      = .reply "Sorry — the AI service is temporarily unavailable. Demo reply: you asked \"hi\"."
          (some "boom") := by
  have h := (chat_upstream_failure_swallowed "sk" (by decide) "hi" (by decide)).1
    ⟨none, some "boom", none⟩
  exact h
